import Mathlib

set_option maxRecDepth 100000

/-!
Verification of the redi core contracts: the buffer (share ledger and pricing)
and the bridge (installment plan engine).  The definitions below are a shallow
embedding of the two Rust/Soroban sources:

  * src/contracts/soroban/buffer/src/lib.rs
  * src/contracts/soroban/bridge/src/lib.rs

Machine integers (i128, u64, u32) are modelled as Int/Nat with explicit range
checks where the source performs checked arithmetic, and explicit wrapping
where the source uses unchecked arithmetic.  Rust division and remainder on
i128 truncate toward zero; they are modelled by Int.tdiv and Int.tmod.
Fallible code returns Except.  A panic in the buffer during a cross-contract
call aborts the whole transaction, so in the bridge embedding such a failure
returns the caller to the pre-call state.  Storage is passed explicitly:
each operation takes the records it reads and returns the records it writes.
External collaborators (the yield reserve, host authorization) are abstracted
by the values they report, matching section 6 of the specification.
-/

namespace Redi

/-- Decidable equality for Except values, used to evaluate results. -/
instance {ε α : Type} [DecidableEq ε] [DecidableEq α] : DecidableEq (Except ε α) := fun a b =>
  match a, b with
  | .ok x, .ok y =>
    if h : x = y then .isTrue (by rw [h]) else .isFalse (by intro hc; cases hc; exact h rfl)
  | .error x, .error y =>
    if h : x = y then .isTrue (by rw [h]) else .isFalse (by intro hc; cases hc; exact h rfl)
  | .ok _, .error _ => .isFalse (by intro hc; cases hc)
  | .error _, .ok _ => .isFalse (by intro hc; cases hc)

/-- Lower bound of the i128 range. -/
def I128_MIN : Int := -(2 ^ 127)

/-- Upper bound of the i128 range. -/
def I128_MAX : Int := 2 ^ 127 - 1

/-- Whether an integer is representable as an i128. -/
def okI128 (x : Int) : Bool := decide (I128_MIN ≤ x) && decide (x ≤ I128_MAX)

/-- Upper bound of the u64 range. -/
def U64_MAX : Nat := 2 ^ 64 - 1

/-- The distinct fatal panics of the buffer contract, one per panic site. -/
inductive BufferPanic where
  | invalidAmount
  | mathOverflow
  | divisionByZero
  | insufficientAvailable
  | insufficientProtected
  | contractPaused
  | depositTooFrequent
  | invalidTimestamp
  | invalidVaultResponse
  | slippageExceeded
  | concurrentModification
  deriving DecidableEq

/-- buffer lib.rs checked_add (lines 581-583): i128 addition, fatal on overflow. -/
def checked_add (a b : Int) : Except BufferPanic Int :=
  if okI128 (a + b) then .ok (a + b) else .error .mathOverflow

/-- buffer lib.rs checked_sub (lines 586-588): i128 subtraction, fatal on overflow. -/
def checked_sub (a b : Int) : Except BufferPanic Int :=
  if okI128 (a - b) then .ok (a - b) else .error .mathOverflow

/-- buffer lib.rs checked_add_u64 (lines 591-593): u64 addition, fatal on overflow. -/
def checked_add_u64 (a b : Nat) : Except BufferPanic Nat :=
  if a + b ≤ U64_MAX then .ok (a + b) else .error .mathOverflow

/-- buffer lib.rs mul_div (lines 596-603): checked multiply then truncating
division; zero denominator and overflow are distinct fatal conditions.
The quotient-overflow case of i128 division (I128_MIN divided by -1) also
panics in Rust and is modelled as overflow. -/
def mul_div (a b c : Int) : Except BufferPanic Int :=
  if c = 0 then .error .divisionByZero
  else if okI128 (a * b) then
    if a * b = I128_MIN ∧ c = -1 then .error .mathOverflow
    else .ok (Int.tdiv (a * b) c)
  else .error .mathOverflow

/-- buffer lib.rs mul_div_ceil (lines 606-620): checked multiply then division
rounded away from zero when a remainder is left. -/
def mul_div_ceil (a b c : Int) : Except BufferPanic Int :=
  if c = 0 then .error .divisionByZero
  else if okI128 (a * b) then
    if a * b = I128_MIN ∧ c = -1 then .error .mathOverflow
    else if Int.tmod (a * b) c = 0 then .ok (Int.tdiv (a * b) c)
    else if okI128 (Int.tdiv (a * b) c + 1) then .ok (Int.tdiv (a * b) c + 1)
    else .error .mathOverflow
  else .error .mathOverflow

/-- Per-user balance record of the share ledger (buffer lib.rs lines 20-26). -/
structure BufferBalance where
  available_shares : Int
  protected_shares : Int
  total_deposited : Int
  last_deposit_ts : Nat
  version : Nat
  deriving DecidableEq

/-- The zero-valued record that get_balance_or_default (buffer lib.rs lines
502-511) returns for a user with no stored balance. -/
def defaultBalance : BufferBalance :=
  { available_shares := 0, protected_shares := 0, total_deposited := 0,
    last_deposit_ts := 0, version := 0 }

def MIN_AMOUNT : Int := 1

def DEFAULT_SLIPPAGE_BPS : Int := 50

def DEFAULT_MIN_INTERVAL_SECS : Nat := 2

def BPS_DIVISOR : Int := 10000

/-- Mutable configuration of the buffer (buffer lib.rs lines 56-59). -/
structure ContractConfig where
  min_deposit_interval : Nat
  slippage_tolerance_bps : Int
  deriving DecidableEq

/-- buffer lib.rs shares_for_amount (lines 411-423).  total_managed and
total_shares are the totals the external vault reports. -/
def shares_for_amount (total_managed total_shares amount : Int) : Except BufferPanic Int :=
  if amount < MIN_AMOUNT then .error .invalidAmount
  else if total_shares = 0 ∨ total_managed = 0 then .ok amount
  else mul_div_ceil amount total_shares total_managed

/-- buffer lib.rs get_values (lines 388-409): token values of a balance at the
reported vault totals; protected value is derived, not rounded separately. -/
def get_values (total_managed vault_total_shares : Int) (bal : BufferBalance) :
    Except BufferPanic (Int × Int × Int) :=
  match checked_add bal.available_shares bal.protected_shares with
  | .error e => .error e
  | .ok total_shares =>
    match (if total_shares = 0 ∨ vault_total_shares = 0 then .ok 0
           else mul_div total_shares total_managed vault_total_shares : Except BufferPanic Int) with
    | .error e => .error e
    | .ok total_value =>
      match (if bal.available_shares = 0 ∨ vault_total_shares = 0 then .ok 0
             else mul_div bal.available_shares total_managed vault_total_shares :
             Except BufferPanic Int) with
      | .error e => .error e
      | .ok available_value =>
        match checked_sub total_value available_value with
        | .error e => .error e
        | .ok protected_value => .ok (available_value, protected_value, total_value)

/-- buffer lib.rs lock_shares (lines 297-326): move shares from the available
pool into the protected pool; gated by the pause flag. -/
def lock_shares (paused : Bool) (bal : BufferBalance) (shares : Int) :
    Except BufferPanic BufferBalance :=
  if paused then .error .contractPaused
  else if shares < MIN_AMOUNT then .error .invalidAmount
  else if bal.available_shares < shares then .error .insufficientAvailable
  else
    match checked_sub bal.available_shares shares, checked_add bal.protected_shares shares,
          checked_add_u64 bal.version 1 with
    | .error e, _, _ => .error e
    | .ok _, .error e, _ => .error e
    | .ok _, .ok _, .error e => .error e
    | .ok av, .ok pr, .ok v =>
      .ok { bal with available_shares := av, protected_shares := pr, version := v }

/-- buffer lib.rs unlock_shares (lines 328-356): move shares from the protected
pool back to the available pool; not gated by the pause flag. -/
def unlock_shares (bal : BufferBalance) (shares : Int) : Except BufferPanic BufferBalance :=
  if shares < MIN_AMOUNT then .error .invalidAmount
  else if bal.protected_shares < shares then .error .insufficientProtected
  else
    match checked_sub bal.protected_shares shares, checked_add bal.available_shares shares,
          checked_add_u64 bal.version 1 with
    | .error e, _, _ => .error e
    | .ok _, .error e, _ => .error e
    | .ok _, .ok _, .error e => .error e
    | .ok pr, .ok av, .ok v =>
      .ok { bal with available_shares := av, protected_shares := pr, version := v }

/-- buffer lib.rs withdraw_internal (lines 447-500): debit the selected pool
after checking its sufficiency, then burn the shares in the vault.  The vault
call and the reported per-asset amounts are external and not part of the
balance state. -/
def withdraw_internal (bal : BufferBalance) (shares : Int) (from_protected : Bool) :
    Except BufferPanic BufferBalance :=
  if shares < MIN_AMOUNT then .error .invalidAmount
  else if from_protected then
    if bal.protected_shares < shares then .error .insufficientProtected
    else
      match checked_sub bal.protected_shares shares, checked_add_u64 bal.version 1 with
      | .error e, _ => .error e
      | .ok _, .error e => .error e
      | .ok pr, .ok v => .ok { bal with protected_shares := pr, version := v }
  else
    if bal.available_shares < shares then .error .insufficientAvailable
    else
      match checked_sub bal.available_shares shares, checked_add_u64 bal.version 1 with
      | .error e, _ => .error e
      | .ok _, .error e => .error e
      | .ok av, .ok v => .ok { bal with available_shares := av, version := v }

/-- buffer lib.rs withdraw_available (lines 286-295): user withdrawal from the
available pool, gated by the pause flag. -/
def withdraw_available (paused : Bool) (bal : BufferBalance) (shares : Int) :
    Except BufferPanic BufferBalance :=
  if paused then .error .contractPaused
  else withdraw_internal bal shares false

/-- buffer lib.rs debit_available (lines 358-366): bridge-authorized debit of
the available pool (no pause gate). -/
def debit_available (bal : BufferBalance) (shares : Int) : Except BufferPanic BufferBalance :=
  withdraw_internal bal shares false

/-- buffer lib.rs debit_protected (lines 368-376): bridge-authorized debit of
the protected pool (no pause gate). -/
def debit_protected (bal : BufferBalance) (shares : Int) : Except BufferPanic BufferBalance :=
  withdraw_internal bal shares true

/-- buffer lib.rs deposit (lines 170-284).  The external vault deposit is
abstracted by actual_shares, the minted share count the vault reports; the
vault totals are those read before the call.  In the sequential execution
model the re-read of the balance after the external call observes the same
record, so the version fence passes and is not repeated here. -/
def deposit (paused : Bool) (cfg : ContractConfig) (total_managed total_shares : Int)
    (actual_shares : Int) (current_ts : Nat) (bal : BufferBalance) (amount : Int) :
    Except BufferPanic BufferBalance :=
  if paused then .error .contractPaused
  else if amount < MIN_AMOUNT then .error .invalidAmount
  else if bal.last_deposit_ts > 0 ∧ current_ts < bal.last_deposit_ts then
    .error .invalidTimestamp
  else if bal.last_deposit_ts > 0 ∧ current_ts - bal.last_deposit_ts < cfg.min_deposit_interval then
    .error .depositTooFrequent
  else
    match (if total_shares = 0 ∨ total_managed = 0 then .ok amount
           else mul_div_ceil amount total_shares total_managed : Except BufferPanic Int) with
    | .error e => .error e
    | .ok expected_shares =>
      match mul_div expected_shares cfg.slippage_tolerance_bps BPS_DIVISOR with
      | .error e => .error e
      | .ok slippage_amount =>
        match checked_sub expected_shares slippage_amount with
        | .error e => .error e
        | .ok min_shares_out =>
          if actual_shares ≤ 0 then .error .invalidVaultResponse
          else if actual_shares < min_shares_out then .error .slippageExceeded
          else
            match checked_add bal.available_shares actual_shares,
                  checked_add bal.total_deposited amount,
                  checked_add_u64 bal.version 1 with
            | .error e, _, _ => .error e
            | .ok _, .error e, _ => .error e
            | .ok _, .ok _, .error e => .error e
            | .ok av, .ok td, .ok v =>
              .ok { bal with
                    available_shares := av, total_deposited := td,
                    last_deposit_ts := current_ts, version := v }

/-- One invocation of a balance-mutating ledger operation, with the external
inputs (pause flag, configuration, vault reports, clock) it observes. -/
inductive LedgerOp where
  | depositOp (paused : Bool) (cfg : ContractConfig)
      (total_managed total_shares actual_shares : Int) (current_ts : Nat) (amount : Int)
  | withdrawAvailableOp (paused : Bool) (shares : Int)
  | lockOp (paused : Bool) (shares : Int)
  | unlockOp (shares : Int)
  | debitAvailableOp (shares : Int)
  | debitProtectedOp (shares : Int)

/-- Dispatch one ledger operation on a balance. -/
def runLedgerOp (bal : BufferBalance) : LedgerOp → Except BufferPanic BufferBalance
  | .depositOp p cfg tm ts ac now amt => deposit p cfg tm ts ac now bal amt
  | .withdrawAvailableOp p s => withdraw_available p bal s
  | .lockOp p s => lock_shares p bal s
  | .unlockOp s => unlock_shares bal s
  | .debitAvailableOp s => debit_available bal s
  | .debitProtectedOp s => debit_protected bal s

/-- Operations are atomic units of work: a failing operation discards its
mutations and leaves the stored balance unchanged. -/
def applyLedgerOp (bal : BufferBalance) (op : LedgerOp) : BufferBalance :=
  match runLedgerOp bal op with
  | .ok b => b
  | .error _ => bal

/-- Run a sequence of ledger operations against a stored balance. -/
def runLedgerOps (bal : BufferBalance) (ops : List LedgerOp) : BufferBalance :=
  ops.foldl applyLedgerOp bal

/-- Both pools of a balance are non-negative. -/
def nonnegBal (b : BufferBalance) : Prop :=
  0 ≤ b.available_shares ∧ 0 ≤ b.protected_shares

/-! ## Bridge contract (installment plan engine) -/

/-- Status of a plan (bridge lib.rs lines 18-24). -/
inductive PlanStatus where
  | Active
  | Completed
  | Defaulted
  deriving DecidableEq

/-- Status of one installment (bridge lib.rs lines 26-32). -/
inductive InstallmentStatus where
  | Pending
  | Paid
  | Failed
  deriving DecidableEq

/-- Payment-source tag (bridge lib.rs lines 37-61): a wrapped u32,
0 for the available pool, 1 for the protected pool. -/
structure PaymentSource where
  val : Nat
  deriving DecidableEq

/-- PaymentSource.available of the source. -/
def paymentAvailable : PaymentSource := ⟨0⟩

/-- PaymentSource.protected of the source. -/
def paymentProtected : PaymentSource := ⟨1⟩

/-- One installment record (bridge lib.rs lines 63-72). -/
structure Installment where
  number : Nat
  amount : Int
  due_date : Nat
  paid_at : Option Nat
  payment_source : Option PaymentSource
  status : InstallmentStatus
  deriving DecidableEq

/-- Default installment value used for out-of-range list reads in statements. -/
def dInst : Installment :=
  { number := 0, amount := 0, due_date := 0, paid_at := none,
    payment_source := none, status := .Pending }

/-- A stored plan (bridge lib.rs lines 74-87).  The plan id is the value of
the u64 counter the bytes-encoded storage id is generated from; user and
merchant identities are abstract. -/
structure BridgePlan where
  plan_id : Nat
  user : Nat
  merchant : Nat
  total_amount : Int
  total_shares : Int
  installments_count : Nat
  installments : List Installment
  protected_shares : Int
  status : PlanStatus
  created_at : Nat
  deriving DecidableEq

/-- The bridge error enum (bridge lib.rs lines 155-174). -/
inductive ContractError where
  | InvalidAmount
  | InvalidInstallments
  | InsufficientCollateral
  | InsufficientAvailable
  | DatesMismatch
  | InvalidDueDate
  | PlanNotFound
  | InstallmentNotFound
  | AlreadyPaid
  | NotDueYet
  | InsufficientFunds
  | TooManyInstallments
  | BufferContractError
  | InvalidShares
  | ExceedsMaxLTV
  deriving DecidableEq

/-- A failed bridge invocation: either a contract error the bridge returns, or
a fatal panic raised inside the buffer during a cross-contract call (which
aborts the whole transaction). -/
inductive TxError where
  | contract (e : ContractError)
  | panic (e : BufferPanic)
  deriving DecidableEq

/-- Maximum loan-to-value ratio in basis points (bridge lib.rs line 147). -/
def MAX_LTV_BPS : Int := 8000

/-- Liquidation alert threshold in basis points (bridge lib.rs line 151);
reserved, not consumed by core logic. -/
def LIQUIDATION_THRESHOLD_BPS : Int := 8500

/-- Wrapping reduction into the i128 range: the semantics of the unchecked
i128 multiplication in the LTV computation under release-profile builds. -/
def wrap128 (x : Int) : Int := (x + 2 ^ 127) % 2 ^ 128 - 2 ^ 127

/-- Installment construction of create_plan (bridge lib.rs lines 309-333):
equal integer parts with the division remainder added entirely to the last
installment. -/
def mkInstallments (total_amount : Int) (installments_count : Nat) (due_dates : List Nat) :
    List Installment :=
  (List.range installments_count).map fun i =>
    { number := i + 1
      amount :=
        if i = installments_count - 1 then
          Int.tdiv total_amount installments_count + Int.tmod total_amount installments_count
        else Int.tdiv total_amount installments_count
      due_date := due_dates.getD i 0
      paid_at := none
      payment_source := none
      status := InstallmentStatus.Pending }

/-- Sum of the amount fields of a list of installments. -/
def sumAmounts (l : List Installment) : Int := (l.map Installment.amount).sum

/-- Successful outcome of create_plan: the stored plan, the updated buffer
balance of the user, and the incremented plan counter. -/
structure CreateResult where
  plan : BridgePlan
  bal : BufferBalance
  counter : Nat
  deriving DecidableEq

/-- bridge lib.rs create_plan (lines 209-385).  External inputs: the pause
flag of the buffer, the ledger timestamp, the vault totals the buffer reads
(total_managed, vault_shares), the stored balance of the user, and the stored
plan counter.  The user-plan index append and event emission carry no
information beyond the returned plan and are not separate state here. -/
def create_plan (paused : Bool) (current_time : Nat) (total_managed vault_shares : Int)
    (bal : BufferBalance) (counter : Nat) (user merchant : Nat) (total_amount : Int)
    (installments_count : Nat) (due_dates : List Nat) :
    Except TxError CreateResult :=
  if total_amount ≤ 0 then .error (.contract .InvalidAmount)
  else if installments_count = 0 ∨ installments_count > 12 then
    .error (.contract .InvalidInstallments)
  else if due_dates.length ≠ installments_count then .error (.contract .DatesMismatch)
  else if due_dates.any (fun d => d ≤ current_time) then .error (.contract .InvalidDueDate)
  else
    match get_values total_managed vault_shares bal with
    | .error e => .error (.panic e)
    | .ok (available_value, _, total_value) =>
      if total_amount > Int.tdiv (wrap128 (total_value * MAX_LTV_BPS)) 10000 then
        .error (.contract .ExceedsMaxLTV)
      else if total_amount > available_value then .error (.contract .InsufficientAvailable)
      else
        match shares_for_amount total_managed vault_shares total_amount with
        | .error e => .error (.panic e)
        | .ok shares_needed =>
          if shares_needed ≤ 0 then .error (.contract .InvalidShares)
          else
            match lock_shares paused bal shares_needed with
            | .error e => .error (.panic e)
            | .ok bal2 =>
              .ok { plan :=
                      { plan_id := counter
                        user := user
                        merchant := merchant
                        total_amount := total_amount
                        total_shares := shares_needed
                        installments_count := installments_count
                        installments := mkInstallments total_amount installments_count due_dates
                        protected_shares := shares_needed
                        status := .Active
                        created_at := current_time }
                    bal := bal2
                    counter := counter + 1 }

/-- Rust i128 checked_sub with unwrap_or(0): the fallback fires only when the
mathematical difference leaves the i128 range, not when it is negative. -/
def checkedSubOr0 (a b : Int) : Int := if okI128 (a - b) then a - b else 0

/-- Proportional collateral release of collection path 1 (bridge lib.rs lines
465-469): checked multiplication with unwrap_or(0), then checked division
with unwrap_or(0).  Rust checked_div returns none exactly on a zero divisor
or on quotient overflow (I128_MIN divided by -1). -/
def sharesToUnlock (shares_needed total_shares total_amount : Int) : Int :=
  let m := if okI128 (shares_needed * total_shares) then shares_needed * total_shares else 0
  if total_amount = 0 ∨ (m = I128_MIN ∧ total_amount = -1) then 0
  else Int.tdiv m total_amount

/-- The successful-payment update to an installment (bridge lib.rs lines
508-510). -/
def markPaid (inst : Installment) (now : Nat) (src : PaymentSource) : Installment :=
  { inst with paid_at := some now, payment_source := some src, status := .Paid }

/-- The all-installments-paid scan (bridge lib.rs lines 516-518). -/
def allPaid (l : List Installment) : Bool :=
  l.all fun i => decide (i.status = InstallmentStatus.Paid)

/-- Outcome of collect_installment: the returned value and the persisted
post-state of the plan and of the user balance. -/
structure CollectOut where
  result : Except TxError PaymentSource
  plan : BridgePlan
  bal : BufferBalance
  deriving DecidableEq

/-- Final section of collect_installment (bridge lib.rs lines 506-545): mark
the installment paid, detect completion, release residual collateral.  p0 and
b0 are the pre-call records: a buffer panic during the residual unlock aborts
the transaction and leaves them in place. -/
def finishCollect (p0 : BridgePlan) (b0 : BufferBalance) (p1 : BridgePlan) (b1 : BufferBalance)
    (installment : Installment) (idx : Nat) (now : Nat) (src : PaymentSource) : CollectOut :=
  let p2 : BridgePlan :=
    { p1 with installments := p1.installments.set idx (markPaid installment now src) }
  if allPaid p2.installments then
    let p3 : BridgePlan := { p2 with status := PlanStatus.Completed }
    if p3.protected_shares > 0 then
      match unlock_shares b1 p3.protected_shares with
      | .error e => ⟨.error (.panic e), p0, b0⟩
      | .ok b2 => ⟨.ok src, { p3 with protected_shares := 0 }, b2⟩
    else ⟨.ok src, p3, b1⟩
  else ⟨.ok src, p2, b1⟩

/-- bridge lib.rs collect_installment (lines 408-546).  The u32 subtraction
installment_number - 1 wraps modulo 2^32 under the release profile, so
number 0 becomes index 2^32 - 1, out of range for every stored plan.  The
source persists the Failed/Defaulted marking before returning the
InsufficientFunds error, so that post-state is kept; a buffer panic instead
aborts the call with every mutation discarded. -/
def collect_installment (total_managed vault_shares : Int) (now : Nat)
    (p0 : BridgePlan) (b0 : BufferBalance) (installment_number : Nat) : CollectOut :=
  let installment_index := (installment_number + (2 ^ 32 - 1)) % 2 ^ 32
  match p0.installments[installment_index]? with
  | none => ⟨.error (.contract .InstallmentNotFound), p0, b0⟩
  | some installment =>
    if installment.status ≠ .Pending then ⟨.error (.contract .AlreadyPaid), p0, b0⟩
    else if now < installment.due_date then ⟨.error (.contract .NotDueYet), p0, b0⟩
    else
      match shares_for_amount total_managed vault_shares installment.amount with
      | .error e => ⟨.error (.panic e), p0, b0⟩
      | .ok shares_needed =>
        if b0.available_shares ≥ shares_needed then
          match debit_available b0 shares_needed with
          | .error e => ⟨.error (.panic e), p0, b0⟩
          | .ok b1 =>
            let released := sharesToUnlock shares_needed p0.total_shares p0.total_amount
            let p1 : BridgePlan :=
              if p0.total_amount > 0 then
                { p0 with protected_shares := checkedSubOr0 p0.protected_shares released }
              else p0
            finishCollect p0 b0 p1 b1 installment installment_index now paymentAvailable
        else if b0.protected_shares ≥ shares_needed then
          match debit_protected b0 shares_needed with
          | .error e => ⟨.error (.panic e), p0, b0⟩
          | .ok b1 =>
            let p1 : BridgePlan :=
              { p0 with protected_shares := checkedSubOr0 p0.protected_shares shares_needed }
            finishCollect p0 b0 p1 b1 installment installment_index now paymentProtected
        else
          let failed : Installment := { installment with status := InstallmentStatus.Failed }
          let p1 : BridgePlan :=
            { p0 with
              status := PlanStatus.Defaulted,
              installments := p0.installments.set installment_index failed }
          ⟨.error (.contract .InsufficientFunds), p1, b0⟩

/-! ## Concrete states used to exercise the model

These mirror the end-to-end scenarios of the validation suite: a stub reserve
reporting (totalManaged, totalShares) = (10000, 10000) and a user holding
10000 shares. -/

/-- A user balance of 10000 available shares. -/
def balA : BufferBalance :=
  { available_shares := 10000, protected_shares := 0, total_deposited := 10000,
    last_deposit_ts := 0, version := 1 }

/-- First installment of planB: 5 tokens due at time 100. -/
def instB1 : Installment :=
  { number := 1, amount := 5, due_date := 100, paid_at := none,
    payment_source := none, status := .Pending }

/-- Second installment of planB: 5 tokens due at time 200. -/
def instB2 : Installment :=
  { number := 2, amount := 5, due_date := 200, paid_at := none,
    payment_source := none, status := .Pending }

/-- A two-installment plan (5 + 5 = 10) with 10 locked shares, one protected
share still recorded. -/
def planB : BridgePlan :=
  { plan_id := 0, user := 1, merchant := 2, total_amount := 10, total_shares := 10,
    installments_count := 2, installments := [instB1, instB2],
    protected_shares := 1, status := .Active, created_at := 0 }

/-- Ledger state for planB with only the protected pool funded. -/
def balB : BufferBalance :=
  { available_shares := 0, protected_shares := 10, total_deposited := 10,
    last_deposit_ts := 0, version := 0 }

/-- Ledger state with neither pool sufficient for a 5-share installment. -/
def balC : BufferBalance :=
  { available_shares := 1, protected_shares := 1, total_deposited := 2,
    last_deposit_ts := 0, version := 0 }

/-- First installment of planD, already collected from the available pool. -/
def instD1 : Installment :=
  { number := 1, amount := 5, due_date := 50, paid_at := some 50,
    payment_source := some paymentAvailable, status := .Paid }

/-- Second installment of planD, still pending. -/
def instD2 : Installment :=
  { number := 2, amount := 5, due_date := 100, paid_at := none,
    payment_source := none, status := .Pending }

/-- A plan whose first installment is already paid and whose second is pending,
with residual over-collateralization (11 shares locked against amount 10). -/
def planD : BridgePlan :=
  { plan_id := 3, user := 1, merchant := 2, total_amount := 10, total_shares := 11,
    installments_count := 2, installments := [instD1, instD2],
    protected_shares := 11, status := .Active, created_at := 0 }

/-- Ledger state for planD right before its final collection. -/
def balD : BufferBalance :=
  { available_shares := 10, protected_shares := 6, total_deposited := 10,
    last_deposit_ts := 0, version := 0 }

/-- A plan whose stored total_shares makes the proportional-release
multiplication overflow the i128 range during collection. -/
def planE : BridgePlan :=
  { plan_id := 4, user := 1, merchant := 2, total_amount := 4, total_shares := 2 ^ 30,
    installments_count := 2,
    installments :=
      [{ number := 1, amount := 2, due_date := 10, paid_at := none,
         payment_source := none, status := .Pending },
       { number := 2, amount := 2, due_date := 1000000, paid_at := none,
         payment_source := none, status := .Pending }],
    protected_shares := 7, status := .Active, created_at := 0 }

/-- Ledger state holding exactly the shares that the first collection of planE needs at
a share price of 2^100 shares per token unit. -/
def balE : BufferBalance :=
  { available_shares := 2 ^ 101, protected_shares := 0, total_deposited := 0,
    last_deposit_ts := 0, version := 0 }

/-- A balance whose most recent deposit was recorded at time 100. -/
def balF : BufferBalance :=
  { available_shares := 0, protected_shares := 0, total_deposited := 50,
    last_deposit_ts := 100, version := 3 }

/-- The result of the end-to-end creation scenario: amount 3000 over 3
installments against balA at vault totals (10000, 10000), created at time
1000 with due dates 2000, 3000, 4000. -/
def resA : CreateResult :=
  { plan :=
      { plan_id := 0, user := 7, merchant := 8, total_amount := 3000, total_shares := 3000,
        installments_count := 3, installments := mkInstallments 3000 3 [2000, 3000, 4000],
        protected_shares := 3000, status := .Active, created_at := 1000 }
    bal :=
      { available_shares := 7000, protected_shares := 3000, total_deposited := 10000,
        last_deposit_ts := 0, version := 2 }
    counter := 1 }

/-! ## Helper lemmas -/

theorem checked_add_ok {a b x : Int} (h : checked_add a b = .ok x) : x = a + b := by
  unfold checked_add at h
  split at h
  · exact (Except.ok.injEq _ _).mp h |>.symm
  · exact absurd h (by simp)

theorem checked_sub_ok {a b x : Int} (h : checked_sub a b = .ok x) : x = a - b := by
  unfold checked_sub at h
  split at h
  · exact (Except.ok.injEq _ _).mp h |>.symm
  · exact absurd h (by simp)

theorem checked_add_u64_ok {a b x : Nat} (h : checked_add_u64 a b = .ok x) : x = a + b := by
  unfold checked_add_u64 at h
  split at h
  · exact (Except.ok.injEq _ _).mp h |>.symm
  · exact absurd h (by simp)

theorem okI128_true {x : Int} (h : okI128 x = true) : I128_MIN ≤ x ∧ x ≤ I128_MAX := by
  unfold okI128 at h
  simpa using h

theorem checked_add_ok_iff {a b x : Int} :
    checked_add a b = .ok x ↔ okI128 (a + b) = true ∧ x = a + b := by
  unfold checked_add
  split <;> simp_all <;> omega

theorem checked_sub_ok_iff {a b x : Int} :
    checked_sub a b = .ok x ↔ okI128 (a - b) = true ∧ x = a - b := by
  unfold checked_sub
  split <;> simp_all <;> omega

theorem checked_add_u64_ok_iff {a b x : Nat} :
    checked_add_u64 a b = .ok x ↔ a + b ≤ U64_MAX ∧ x = a + b := by
  unfold checked_add_u64
  split <;> simp_all <;> omega

theorem checked_add_ne_dtf (a b : Int) : checked_add a b ≠ .error .depositTooFrequent := by
  rw [checked_add]
  split <;> simp

theorem checked_sub_ne_dtf (a b : Int) : checked_sub a b ≠ .error .depositTooFrequent := by
  rw [checked_sub]
  split <;> simp

theorem checked_add_u64_ne_dtf (a b : Nat) :
    checked_add_u64 a b ≠ .error .depositTooFrequent := by
  rw [checked_add_u64]
  split <;> simp

theorem mul_div_ne_dtf (a b c : Int) : mul_div a b c ≠ .error .depositTooFrequent := by
  rw [mul_div]
  repeat' split
  all_goals simp

theorem mul_div_ceil_ne_dtf (a b c : Int) :
    mul_div_ceil a b c ≠ .error .depositTooFrequent := by
  rw [mul_div_ceil]
  repeat' split
  all_goals simp

theorem expected_shares_ne_dtf (P : Prop) [Decidable P] (x a b c : Int) :
    (if P then Except.ok x else mul_div_ceil a b c) ≠
      Except.error BufferPanic.depositTooFrequent := by
  split
  · simp
  · exact mul_div_ceil_ne_dtf a b c

/-- The deposit-too-frequent panic arises only from the throttle: any call of
deposit that fails with it had a recorded earlier deposit and was made
strictly before the minimum interval elapsed. -/
theorem deposit_tooFrequent_inv (paused : Bool) (cfg : ContractConfig)
    (tm ts ac : Int) (now : Nat) (bal : BufferBalance) (amount : Int)
    (h : deposit paused cfg tm ts ac now bal amount = .error .depositTooFrequent) :
    0 < bal.last_deposit_ts ∧ bal.last_deposit_ts ≤ now ∧
      now - bal.last_deposit_ts < cfg.min_deposit_interval := by
  simp only [deposit] at h
  repeat' split at h
  all_goals simp at h
  all_goals try subst h
  all_goals try (rename_i heq2; exact absurd heq2 (by first | exact expected_shares_ne_dtf _ _ _ _ _ | exact mul_div_ne_dtf _ _ _ | exact mul_div_ceil_ne_dtf _ _ _ | exact checked_sub_ne_dtf _ _ | exact checked_add_ne_dtf _ _ | exact checked_add_u64_ne_dtf _ _))
  all_goals omega

/-- The wrapped index computation of collect_installment at an in-range
installment number. -/
theorem installment_index_eq {n : Nat} (h1 : 1 ≤ n) (h32 : n < 2 ^ 32) :
    (n + (2 ^ 32 - 1)) % 2 ^ 32 = n - 1 := by
  omega

/-- Wrapping reduction is the identity on values inside the i128 range. -/
theorem wrap128_eq_self {x : Int} (hlo : I128_MIN ≤ x) (hhi : x ≤ I128_MAX) :
    wrap128 x = x := by
  unfold wrap128
  rw [Int.emod_eq_of_lt (by unfold I128_MIN at hlo; omega) (by unfold I128_MAX at hhi; omega)]
  omega

theorem mkInstallments_length (ta : Int) (n : Nat) (dd : List Nat) :
    (mkInstallments ta n dd).length = n := by
  simp [mkInstallments]

theorem mkInstallments_amount (ta : Int) (n : Nat) (dd : List Nat) {i : Nat} (hi : i < n) :
    ((mkInstallments ta n dd).getD i dInst).amount =
      if i = n - 1 then Int.tdiv ta (n : Int) + Int.tmod ta (n : Int)
      else Int.tdiv ta (n : Int) := by
  simp [mkInstallments, List.getD_eq_getElem?_getD, List.getElem?_map, List.getElem?_range hi]

theorem mkInstallments_sum (ta : Int) (n : Nat) (dd : List Nat)
    (hta : 0 ≤ ta) (hn : 0 < n) :
    sumAmounts (mkInstallments ta n dd) = ta := by
  obtain ⟨k, rfl⟩ : ∃ k, n = k + 1 := ⟨n - 1, by omega⟩
  rw [sumAmounts, mkInstallments, List.map_map, List.range_succ, List.map_append,
    List.sum_append]
  have hcpos : (0 : Int) < ((k + 1 : Nat) : Int) := by positivity
  have hhead :
      List.map
        (Installment.amount ∘ fun i =>
          ({ number := i + 1
             amount :=
               if i = (k + 1) - 1 then
                 Int.tdiv ta ((k + 1 : Nat) : Int) + Int.tmod ta ((k + 1 : Nat) : Int)
               else Int.tdiv ta ((k + 1 : Nat) : Int)
             due_date := dd.getD i 0
             paid_at := none
             payment_source := none
             status := InstallmentStatus.Pending } : Installment))
        (List.range k) =
      List.map (fun _ => Int.tdiv ta ((k + 1 : Nat) : Int)) (List.range k) := by
    apply List.map_congr_left
    intro a ha
    have hak : a < k := List.mem_range.mp ha
    show (if a = (k + 1) - 1 then
        Int.tdiv ta ((k + 1 : Nat) : Int) + Int.tmod ta ((k + 1 : Nat) : Int)
      else Int.tdiv ta ((k + 1 : Nat) : Int)) = Int.tdiv ta ((k + 1 : Nat) : Int)
    rw [if_neg (by omega : ¬a = (k + 1) - 1)]
  rw [hhead, List.map_const', List.length_range, List.sum_replicate, nsmul_eq_mul]
  have hlast :
      List.map
        (Installment.amount ∘ fun i =>
          ({ number := i + 1
             amount :=
               if i = (k + 1) - 1 then
                 Int.tdiv ta ((k + 1 : Nat) : Int) + Int.tmod ta ((k + 1 : Nat) : Int)
               else Int.tdiv ta ((k + 1 : Nat) : Int)
             due_date := dd.getD i 0
             paid_at := none
             payment_source := none
             status := InstallmentStatus.Pending } : Installment))
        [k] =
      [Int.tdiv ta ((k + 1 : Nat) : Int) + Int.tmod ta ((k + 1 : Nat) : Int)] := by
    simp [Function.comp]
  rw [hlast]
  simp only [List.sum_cons, List.sum_nil, add_zero]
  have hdm : ((k + 1 : Nat) : Int) * Int.tdiv ta ((k + 1 : Nat) : Int) +
      Int.tmod ta ((k + 1 : Nat) : Int) = ta := by
    rw [Int.tdiv_eq_ediv hta (le_of_lt hcpos), Int.tmod_eq_emod hta (le_of_lt hcpos)]
    exact Int.ediv_add_emod ta _
  push_cast at hdm ⊢
  ring_nf at hdm ⊢
  linarith [hdm]

/-- Inversion of a successful plan creation: the validations held and the
stored plan carries the remainder-carrying installment schedule. -/
theorem create_plan_ok_inv {paused : Bool} {ct : Nat} {tm vs : Int} {bal : BufferBalance}
    {counter u m : Nat} {ta : Int} {n : Nat} {dd : List Nat} {res : CreateResult}
    (h : create_plan paused ct tm vs bal counter u m ta n dd = .ok res) :
    0 < ta ∧ 1 ≤ n ∧ n ≤ 12 ∧ res.plan.installments = mkInstallments ta n dd ∧
      res.plan.total_amount = ta ∧ res.plan.installments_count = n := by
  simp only [create_plan] at h
  repeat' split at h
  all_goals simp at h
  subst h
  refine ⟨by omega, by omega, by omega, rfl, rfl, rfl⟩

/-! ## Claims -/

/-- C5: for every amount a with 1 ≤ a and reserve totals totalManaged > 0 and
totalShares > 0, whenever shares_for_amount a succeeds with s shares and the
floor-rounded pricing of s back to value succeeds with v, then a ≤ v: the
ceiling share computation never under-collateralizes a. -/
theorem claim_C5 (a tm ts s v : Int) (ha : 1 ≤ a) (htm : 0 < tm) (hts : 0 < ts)
    (hs : shares_for_amount tm ts a = .ok s) (hv : mul_div s tm ts = .ok v) : a ≤ v := by
  rw [shares_for_amount, if_neg (by unfold MIN_AMOUNT; omega),
      if_neg (by rintro (h | h) <;> omega)] at hs
  have hP : 0 ≤ a * ts := mul_nonneg (by omega) (by omega)
  -- key inequality: the ceiling result s satisfies a * ts ≤ s * tm
  have hkey : a * ts ≤ s * tm := by
    rw [mul_div_ceil, if_neg (by omega)] at hs
    split at hs
    case isFalse => exact absurd hs (by simp)
    case isTrue hok =>
      split at hs
      case isTrue hmin => exact absurd hs (by simp)
      case isFalse hmin =>
        split at hs
        case isTrue hmod =>
          -- exact division: s = (a * ts) / tm
          have hseq : Int.tdiv (a * ts) tm = s := by injection hs
          rw [← hseq, Int.tdiv_eq_ediv hP (le_of_lt htm)]
          rw [Int.tmod_eq_emod hP (le_of_lt htm)] at hmod
          rw [Int.ediv_mul_cancel (Int.dvd_of_emod_eq_zero hmod)]
        case isFalse hmod =>
          split at hs
          case isFalse => exact absurd hs (by simp)
          case isTrue =>
            -- remainder case: s = (a * ts) / tm + 1
            have hseq : Int.tdiv (a * ts) tm + 1 = s := by injection hs
            have hd := Int.ediv_add_emod (a * ts) tm
            have hr := Int.emod_lt_of_pos (a * ts) htm
            rw [← hseq, Int.tdiv_eq_ediv hP (le_of_lt htm)]
            have hexp : (a * ts / tm + 1) * tm = tm * (a * ts / tm) + tm := by ring
            rw [hexp]
            linarith [hd, hr]
  have h0s : 0 ≤ s * tm := le_trans hP hkey
  rw [mul_div, if_neg (by omega)] at hv
  split at hv
  case isFalse => exact absurd hv (by simp)
  case isTrue =>
    split at hv
    case isTrue => exact absurd hv (by simp)
    case isFalse =>
      have hveq : Int.tdiv (s * tm) ts = v := by injection hv
      rw [← hveq, Int.tdiv_eq_ediv h0s (le_of_lt hts)]
      calc a = a * ts / ts := (Int.mul_ediv_cancel a (ne_of_gt hts)).symm
        _ ≤ s * tm / ts := Int.ediv_le_ediv hts hkey

/-- C5 witness: amount 3 at totals (10, 7) prices to 3 shares, which price
back to 4 ≥ 3. -/
theorem claim_C5_witness : (3 : Int) ≤ 4 :=
  claim_C5 3 10 7 3 4 (by decide) (by decide) (by decide) (by rfl) (by rfl)

/-- C9 counterexample: at share price 2^100 shares per unit, collecting the
first installment of planE needs 2^101 shares; the proportional-release
multiplication 2^101 * planE.total_shares leaves the i128 range, yet the call
succeeds and the protected_shares field of the plan is left unchanged (the
overflowing product was silently replaced by the default 0) instead of the
operation failing fatally. -/
theorem claim_C9_counterexample :
    shares_for_amount 1 (2 ^ 100) 2 = .ok (2 ^ 101) ∧
    okI128 (2 ^ 101 * planE.total_shares) = false ∧
    (collect_installment 1 (2 ^ 100) 10 planE balE 1).result = .ok paymentAvailable ∧
    (collect_installment 1 (2 ^ 100) 10 planE balE 1).plan.protected_shares =
      planE.protected_shares := by
  exact ⟨by rfl, by rfl, by rfl, by rfl⟩

/-- C9 (amended): the shared arithmetic helpers of the buffer fail fatally on
i128 overflow and on a zero divisor, but the proportional-release computation
of collection path 1 substitutes 0 when its multiplication overflows, and the
collateral-release subtractions on the protected_shares field of a plan
substitute 0 only when the difference leaves the i128 range. -/
theorem claim_C9 :
    (∀ a b : Int, mul_div a b 0 = .error .divisionByZero) ∧
    (∀ a b c : Int, c ≠ 0 → okI128 (a * b) = false → mul_div a b c = .error .mathOverflow) ∧
    (∀ a b : Int, mul_div_ceil a b 0 = .error .divisionByZero) ∧
    (∀ a b c : Int, c ≠ 0 → okI128 (a * b) = false →
      mul_div_ceil a b c = .error .mathOverflow) ∧
    (∀ s t ta : Int, okI128 (s * t) = false → sharesToUnlock s t ta = 0) ∧
    (∀ a b : Int, okI128 (a - b) = false → checkedSubOr0 a b = 0) := by
  refine ⟨?_, ?_, ?_, ?_, ?_, ?_⟩
  · intro a b
    simp [mul_div]
  · intro a b c hc hov
    simp [mul_div, hc, hov]
  · intro a b
    simp [mul_div_ceil]
  · intro a b c hc hov
    simp [mul_div_ceil, hc, hov]
  · intro s t ta hov
    rw [sharesToUnlock]
    simp only [hov, Bool.false_eq_true, if_false]
    split
    · rfl
    · exact Int.zero_tdiv ta
  · intro a b hov
    simp [checkedSubOr0, hov]

/-- C9 witness: concrete overflowing and zero-divisor inputs for each
conjunct. -/
theorem claim_C9_witness :
    mul_div 7 9 0 = .error .divisionByZero ∧
    mul_div (2 ^ 70) (2 ^ 70) 5 = .error .mathOverflow ∧
    mul_div_ceil 7 9 0 = .error .divisionByZero ∧
    mul_div_ceil (2 ^ 70) (2 ^ 70) 5 = .error .mathOverflow ∧
    sharesToUnlock (2 ^ 70) (2 ^ 70) 5 = 0 ∧
    checkedSubOr0 (-(2 ^ 126)) (2 ^ 126 + 1) = 0 :=
  ⟨claim_C9.1 7 9,
   claim_C9.2.1 (2 ^ 70) (2 ^ 70) 5 (by decide) (by rfl),
   claim_C9.2.2.1 7 9,
   claim_C9.2.2.2.1 (2 ^ 70) (2 ^ 70) 5 (by decide) (by rfl),
   claim_C9.2.2.2.2.1 (2 ^ 70) (2 ^ 70) 5 (by rfl),
   claim_C9.2.2.2.2.2 (-(2 ^ 126)) (2 ^ 126 + 1) (by rfl)⟩

/-- C10 counterexample: collecting installment 1 of planB from the protected
pool succeeds although planB records only 1 protected share against the 5
shares needed, and the protected_shares field of the plan ends at -4: it is
not clamped at 0. -/
theorem claim_C10_counterexample :
    planB.protected_shares = 1 ∧
    shares_for_amount 0 0 5 = .ok 5 ∧
    (collect_installment 0 0 150 planB balB 1).result = .ok paymentProtected ∧
    (collect_installment 0 0 150 planB balB 1).plan.protected_shares = -4 := by
  exact ⟨by rfl, by rfl, by rfl, by rfl⟩

/-- C10 (amended): the path-2 sufficiency test of collect_installment compares
the shares needed against the ledger-wide protected balance of the user, not
against the protected_shares recorded on the plan being collected, so the
collection succeeds whenever the ledger-wide pool suffices — even when the
plan itself records fewer protected shares than needed — and the plan field is
then reduced by the full shares needed, going negative in that case (the
unwrap_or(0) fallback of the subtraction fires only on i128 overflow). -/
theorem claim_C10 (tm vs : Int) (now : Nat) (p0 : BridgePlan) (b0 : BufferBalance)
    (n : Nat) (inst : Installment) (s : Int)
    (hn : 1 ≤ n) (hn32 : n < 2 ^ 32)
    (hinst : p0.installments[n - 1]? = some inst)
    (hpend : inst.status = .Pending) (hdue : inst.due_date ≤ now)
    (hshares : shares_for_amount tm vs inst.amount = .ok s)
    (hs1 : 1 ≤ s)
    (hav : b0.available_shares < s)
    (hpr : s ≤ b0.protected_shares)
    (hsub : okI128 (b0.protected_shares - s) = true)
    (hver : b0.version + 1 ≤ U64_MAX)
    (hclamp : okI128 (p0.protected_shares - s) = true)
    (hplan : p0.protected_shares < s)
    (hnotall : allPaid (p0.installments.set (n - 1) (markPaid inst now paymentProtected))
      = false) :
    collect_installment tm vs now p0 b0 n =
      ⟨.ok paymentProtected,
       { p0 with
         protected_shares := p0.protected_shares - s,
         installments := p0.installments.set (n - 1) (markPaid inst now paymentProtected) },
       { b0 with protected_shares := b0.protected_shares - s, version := b0.version + 1 }⟩ ∧
    p0.protected_shares - s < 0 := by
  have hidx : (n + (2 ^ 32 - 1)) % 2 ^ 32 = n - 1 := installment_index_eq hn hn32
  have hndue : ¬(now < inst.due_date) := by omega
  have hnav : ¬(s ≤ b0.available_shares) := by omega
  have hnmin : ¬(s < MIN_AMOUNT) := by rw [MIN_AMOUNT]; omega
  have hnpr : ¬(b0.protected_shares < s) := by omega
  refine ⟨?_, by omega⟩
  simp only [collect_installment, hidx, hinst]
  simp [hpend, hndue, hshares, ge_iff_le, hnav, hpr, debit_protected, withdraw_internal,
    hnmin, checked_sub, checked_add_u64, hsub, hver, checkedSubOr0, hclamp,
    finishCollect, hnotall, hnpr]

/-- Every ledger operation that succeeds preserves non-negativity of both
pools: the debit, lock and unlock paths check the source pool first, and a
deposit credits a strictly positive minted-share count. -/
theorem runLedgerOp_nonneg {b b' : BufferBalance} (op : LedgerOp)
    (hb : nonnegBal b) (h : runLedgerOp b op = .ok b') : nonnegBal b' := by
  obtain ⟨h1, h2⟩ := hb
  cases op with
  | depositOp p cfg tm ts ac now amt =>
    simp only [runLedgerOp, deposit] at h
    repeat' split at h
    all_goals simp at h
    all_goals try (exfalso; simp_all; done)
    all_goals subst h
    all_goals simp only [checked_add_ok_iff, checked_sub_ok_iff, checked_add_u64_ok_iff,
      MIN_AMOUNT] at *
    all_goals constructor <;> (dsimp only; omega)
  | withdrawAvailableOp p s =>
    simp only [runLedgerOp, withdraw_available, withdraw_internal] at h
    repeat' split at h
    all_goals simp at h
    all_goals try (exfalso; simp_all; done)
    all_goals subst h
    all_goals simp only [checked_add_ok_iff, checked_sub_ok_iff, checked_add_u64_ok_iff,
      MIN_AMOUNT] at *
    all_goals constructor <;> (dsimp only; omega)
  | lockOp p s =>
    simp only [runLedgerOp, lock_shares] at h
    repeat' split at h
    all_goals simp at h
    all_goals try (exfalso; simp_all; done)
    all_goals subst h
    all_goals simp only [checked_add_ok_iff, checked_sub_ok_iff, checked_add_u64_ok_iff,
      MIN_AMOUNT] at *
    all_goals constructor <;> (dsimp only; omega)
  | unlockOp s =>
    simp only [runLedgerOp, unlock_shares] at h
    repeat' split at h
    all_goals simp at h
    all_goals try (exfalso; simp_all; done)
    all_goals subst h
    all_goals simp only [checked_add_ok_iff, checked_sub_ok_iff, checked_add_u64_ok_iff,
      MIN_AMOUNT] at *
    all_goals constructor <;> (dsimp only; omega)
  | debitAvailableOp s =>
    simp only [runLedgerOp, debit_available, withdraw_internal] at h
    repeat' split at h
    all_goals simp at h
    all_goals try (exfalso; simp_all; done)
    all_goals subst h
    all_goals simp only [checked_add_ok_iff, checked_sub_ok_iff, checked_add_u64_ok_iff,
      MIN_AMOUNT] at *
    all_goals constructor <;> (dsimp only; omega)
  | debitProtectedOp s =>
    simp only [runLedgerOp, debit_protected, withdraw_internal] at h
    repeat' split at h
    all_goals simp at h
    all_goals try (exfalso; simp_all; done)
    all_goals subst h
    all_goals simp only [checked_add_ok_iff, checked_sub_ok_iff, checked_add_u64_ok_iff,
      MIN_AMOUNT] at *
    all_goals constructor <;> (dsimp only; omega)

/-- A failing operation keeps the stored balance, so applyLedgerOp always
preserves the invariant. -/
theorem applyLedgerOp_nonneg (b : BufferBalance) (op : LedgerOp) (hb : nonnegBal b) :
    nonnegBal (applyLedgerOp b op) := by
  unfold applyLedgerOp
  split
  case h_1 b' heq => exact runLedgerOp_nonneg op hb heq
  case h_2 => exact hb

theorem runLedgerOps_nonneg (ops : List LedgerOp) :
    ∀ b : BufferBalance, nonnegBal b → nonnegBal (runLedgerOps b ops) := by
  induction ops with
  | nil => intro b hb; exact hb
  | cons op rest ih =>
    intro b hb
    exact ih (applyLedgerOp b op) (applyLedgerOp_nonneg b op hb)

/-- C6: starting from the zero-valued default balance, every sequence of
ledger operations (deposit, withdraw_available, lock_shares, unlock_shares,
debit_available, debit_protected) keeps available_shares and protected_shares
non-negative; moreover a single operation from any state satisfying the
invariant cannot break it, since each debiting or locking operation checks
the source pool first and fails (leaving the balance unchanged) otherwise. -/
theorem claim_C6 :
    (∀ ops : List LedgerOp, nonnegBal (runLedgerOps defaultBalance ops)) ∧
    (∀ (b : BufferBalance) (op : LedgerOp), nonnegBal b → nonnegBal (applyLedgerOp b op)) :=
  ⟨fun ops => runLedgerOps_nonneg ops defaultBalance (by simp [nonnegBal, defaultBalance]),
   fun b op hb => applyLedgerOp_nonneg b op hb⟩

/-- C6 witness: a concrete deposit, lock, debit sequence from the default
balance, and a single lock from the default balance. -/
theorem claim_C6_witness :
    nonnegBal (runLedgerOps defaultBalance
      [.depositOp false ⟨2, 50⟩ 0 0 100 10 100, .lockOp false 40, .debitProtectedOp 40]) ∧
    nonnegBal (applyLedgerOp defaultBalance (.lockOp false 5)) :=
  ⟨claim_C6.1 _, claim_C6.2 defaultBalance (.lockOp false 5) (by simp [nonnegBal, defaultBalance])⟩

/-- C7: on an existing plan, collect_installment fails with
InstallmentNotFound for every out-of-range installment number (number 0 wraps
to index 2^32 - 1; any number above the installment count addresses past the
end), fails with AlreadyPaid when the addressed slot is not Pending, and fails
with NotDueYet when the ledger time is strictly before the due date — the
checks apply in that order and each failure leaves the plan and the balance
exactly as they were. -/
theorem claim_C7 (tm vs : Int) (now : Nat) (p0 : BridgePlan) (b0 : BufferBalance) (n : Nat)
    (hn32 : n < 2 ^ 32) (hlen32 : p0.installments.length < 2 ^ 32) :
    (n = 0 ∨ p0.installments.length < n →
      collect_installment tm vs now p0 b0 n =
        ⟨.error (.contract .InstallmentNotFound), p0, b0⟩) ∧
    (∀ inst : Installment, 1 ≤ n → p0.installments[n - 1]? = some inst →
      inst.status ≠ .Pending →
      collect_installment tm vs now p0 b0 n = ⟨.error (.contract .AlreadyPaid), p0, b0⟩) ∧
    (∀ inst : Installment, 1 ≤ n → p0.installments[n - 1]? = some inst →
      inst.status = .Pending → now < inst.due_date →
      collect_installment tm vs now p0 b0 n = ⟨.error (.contract .NotDueYet), p0, b0⟩) := by
  refine ⟨?_, ?_, ?_⟩
  · intro hor
    have hnone : p0.installments[(n + (2 ^ 32 - 1)) % 2 ^ 32]? = none :=
      List.getElem?_eq_none (by omega)
    simp only [collect_installment, hnone]
  · intro inst h1 hinst hstat
    have hidx : (n + (2 ^ 32 - 1)) % 2 ^ 32 = n - 1 := by omega
    simp only [collect_installment, hidx, hinst]
    rw [if_pos hstat]
  · intro inst h1 hinst hstat hdue
    have hidx : (n + (2 ^ 32 - 1)) % 2 ^ 32 = n - 1 := by omega
    simp only [collect_installment, hidx, hinst]
    rw [if_neg (by simp [hstat]), if_pos hdue]

/-- C7 witness: number 0 and number 3 on the two-installment planB are not
found, collecting the already-paid first installment of planD fails with
AlreadyPaid, and collecting the second installment of planB at time 150
(due 200) fails with NotDueYet; the states are returned unchanged. -/
theorem claim_C7_witness :
    collect_installment 0 0 150 planB balB 0 =
      ⟨.error (.contract .InstallmentNotFound), planB, balB⟩ ∧
    collect_installment 0 0 150 planB balB 3 =
      ⟨.error (.contract .InstallmentNotFound), planB, balB⟩ ∧
    collect_installment 0 0 60 planD balD 1 =
      ⟨.error (.contract .AlreadyPaid), planD, balD⟩ ∧
    collect_installment 0 0 150 planB balB 2 =
      ⟨.error (.contract .NotDueYet), planB, balB⟩ :=
  ⟨(claim_C7 0 0 150 planB balB 0 (by decide) (by decide)).1 (Or.inl rfl),
   (claim_C7 0 0 150 planB balB 3 (by decide) (by decide)).1 (Or.inr (by decide)),
   (claim_C7 0 0 60 planD balD 1 (by decide) (by decide)).2.1 instD1 (by decide) (by rfl)
     (by decide),
   (claim_C7 0 0 150 planB balB 2 (by decide) (by decide)).2.2 instB2 (by decide) (by rfl)
     (by rfl) (by decide)⟩

/-- C1: every successfully created plan (which requires totalAmount > 0 and an
installment count between 1 and 12) stores exactly installmentsCount
installments; the amount of each non-last installment is the truncating integer
division totalAmount / installmentsCount, the last additionally carries the
remainder, and the amounts sum to totalAmount exactly. -/
theorem claim_C1 {paused : Bool} {ct : Nat} {tm vs : Int} {bal : BufferBalance}
    {counter u m : Nat} {ta : Int} {n : Nat} {dd : List Nat} {res : CreateResult}
    (h : create_plan paused ct tm vs bal counter u m ta n dd = .ok res) :
    res.plan.installments.length = n ∧
    (∀ i : Nat, i < n - 1 →
      (res.plan.installments.getD i dInst).amount = Int.tdiv ta (n : Int)) ∧
    (res.plan.installments.getD (n - 1) dInst).amount =
      Int.tdiv ta (n : Int) + Int.tmod ta (n : Int) ∧
    sumAmounts res.plan.installments = ta := by
  obtain ⟨hta, hn1, _, hins, _, _⟩ := create_plan_ok_inv h
  rw [hins]
  refine ⟨mkInstallments_length ta n dd, ?_, ?_, ?_⟩
  · intro i hi
    rw [mkInstallments_amount ta n dd (by omega), if_neg (by omega)]
  · rw [mkInstallments_amount ta n dd (by omega), if_pos rfl]
  · exact mkInstallments_sum ta n dd (le_of_lt hta) (by omega)

/-- C1 witness: the 3000-over-3 scenario creates installments of amounts
1000, 1000, 1000 summing to 3000. -/
theorem claim_C1_witness :
    resA.plan.installments.length = 3 ∧
    (∀ i : Nat, i < 3 - 1 →
      (resA.plan.installments.getD i dInst).amount = Int.tdiv 3000 ((3 : Nat) : Int)) ∧
    (resA.plan.installments.getD (3 - 1) dInst).amount =
      Int.tdiv 3000 ((3 : Nat) : Int) + Int.tmod 3000 ((3 : Nat) : Int) ∧
    sumAmounts resA.plan.installments = 3000 :=
  @claim_C1 false 1000 10000 10000 balA 0 7 8 3000 3 [2000, 3000, 4000] resA (by rfl)

/-- C2: for a creation request that passes the basic validations (positive
amount, 1-12 installments, matching future due dates), with the buffer
reporting values (av, pv, tv) and tv * 8000 inside the i128 range,
create_plan fails with ExceedsMaxLTV exactly when totalAmount exceeds
floor(tv * 8000 / 10000); at the boundary the LTV check passes and only the
later checks can reject, one unit above it the call fails with ExceedsMaxLTV. -/
theorem claim_C2 (paused : Bool) (ct : Nat) (tm vs : Int) (bal : BufferBalance)
    (counter u m : Nat) (ta : Int) (n : Nat) (dd : List Nat) (av pv tv : Int)
    (hta : 0 < ta) (hn1 : 1 ≤ n) (hn12 : n ≤ 12) (hdl : dd.length = n)
    (hdates : ∀ d ∈ dd, ct < d)
    (hgv : get_values tm vs bal = .ok (av, pv, tv))
    (htv : 0 ≤ tv) (hov : tv * 8000 ≤ I128_MAX) :
    create_plan paused ct tm vs bal counter u m ta n dd =
        .error (.contract .ExceedsMaxLTV) ↔
      tv * 8000 / 10000 < ta := by
  have h1 : ¬(ta ≤ 0) := by omega
  have h2 : ¬(n = 0 ∨ n > 12) := by omega
  have h3 : ¬(dd.length ≠ n) := by omega
  have h4 : (dd.any fun d => decide (d ≤ ct)) = false := by
    simp only [List.any_eq_false]
    intro d hd
    have := hdates d hd
    simp
    omega
  have hwrap : wrap128 (tv * MAX_LTV_BPS) = tv * MAX_LTV_BPS := by
    apply wrap128_eq_self
    · rw [I128_MIN, MAX_LTV_BPS]
      omega
    · rw [MAX_LTV_BPS]
      exact hov
  have htd : Int.tdiv (tv * MAX_LTV_BPS) 10000 = tv * 8000 / 10000 := by
    rw [MAX_LTV_BPS, Int.tdiv_eq_ediv (by positivity) (by norm_num)]
  constructor
  · intro hcon
    by_contra hnot
    simp only [create_plan, h1, h2, h3, h4, hgv, hwrap, htd] at hcon
    rw [if_neg (by simp), if_neg (by simp), if_neg (by simp), if_neg (by simp),
        if_neg (by omega)] at hcon
    repeat' split at hcon
    all_goals simp at hcon
  · intro hlt
    simp only [create_plan, h1, h2, h3, h4, hgv, hwrap, htd]
    rw [if_neg (by simp), if_neg (by simp), if_neg (by simp), if_neg (by simp),
        if_pos (by omega)]

/-- C2 witness: with the buffer reporting total value 10000 (10000 available
shares at vault totals 10000/10000), the LTV ceiling is 8000: a request of
8001 fails with ExceedsMaxLTV and a request of exactly 8000 does not hit the
LTV error. -/
theorem claim_C2_witness :
    (create_plan false 1000 10000 10000 balA 0 7 8 8001 3 [2000, 3000, 4000] =
        .error (.contract .ExceedsMaxLTV) ↔
      (10000 : Int) * 8000 / 10000 < 8001) ∧
    (create_plan false 1000 10000 10000 balA 0 7 8 8000 3 [2000, 3000, 4000] =
        .error (.contract .ExceedsMaxLTV) ↔
      (10000 : Int) * 8000 / 10000 < 8000) :=
  ⟨claim_C2 false 1000 10000 10000 balA 0 7 8 8001 3 [2000, 3000, 4000] 10000 0 10000
     (by decide) (by decide) (by decide) (by decide) (by decide) (by rfl) (by decide)
     (by decide),
   claim_C2 false 1000 10000 10000 balA 0 7 8 8000 3 [2000, 3000, 4000] 10000 0 10000
     (by decide) (by decide) (by decide) (by decide) (by decide) (by rfl) (by decide)
     (by decide)⟩

/-- C3: collecting a due, Pending installment when both the available pool and
the protected pool of the ledger balance are strictly below the shares needed
marks that installment Failed and the plan Defaulted, persists both and
returns InsufficientFunds (the balance is untouched); every later collection
of the same installment, at any vault totals and any time, fails with
AlreadyPaid and changes nothing, so Failed and Defaulted are terminal. -/
theorem claim_C3 (tm vs : Int) (now : Nat) (p0 : BridgePlan) (b0 : BufferBalance)
    (n : Nat) (inst : Installment) (s : Int)
    (hn : 1 ≤ n) (hn32 : n < 2 ^ 32)
    (hinst : p0.installments[n - 1]? = some inst)
    (hpend : inst.status = .Pending) (hdue : inst.due_date ≤ now)
    (hshares : shares_for_amount tm vs inst.amount = .ok s)
    (hav : b0.available_shares < s) (hpr : b0.protected_shares < s) :
    collect_installment tm vs now p0 b0 n =
      ⟨.error (.contract .InsufficientFunds),
       { p0 with
         status := PlanStatus.Defaulted,
         installments := p0.installments.set (n - 1) { inst with status := .Failed } },
       b0⟩ ∧
    (∀ (tm2 vs2 : Int) (now2 : Nat),
      collect_installment tm2 vs2 now2
        { p0 with
          status := PlanStatus.Defaulted,
          installments := p0.installments.set (n - 1) { inst with status := .Failed } }
        b0 n =
      ⟨.error (.contract .AlreadyPaid),
       { p0 with
         status := PlanStatus.Defaulted,
         installments := p0.installments.set (n - 1) { inst with status := .Failed } },
       b0⟩) := by
  have hidx : (n + (2 ^ 32 - 1)) % 2 ^ 32 = n - 1 := by omega
  have hlen : n - 1 < p0.installments.length := by
    by_contra hcon
    rw [List.getElem?_eq_none (by omega)] at hinst
    cases hinst
  constructor
  · have hndue : ¬(now < inst.due_date) := by omega
    have hnav : ¬(s ≤ b0.available_shares) := by omega
    have hnpr : ¬(s ≤ b0.protected_shares) := by omega
    simp only [collect_installment, hidx, hinst]
    simp [hpend, hndue, hshares, ge_iff_le, hnav, hnpr]
  · intro tm2 vs2 now2
    have hset : (p0.installments.set (n - 1) { inst with status := .Failed })[n - 1]? =
        some { inst with status := .Failed } :=
      List.getElem?_set_self (by omega)
    simp only [collect_installment, hidx]
    simp [hset]

/-- C3 witness: with ledger balance (1 available, 1 protected) against the
5-share first installment of planB, collection defaults the plan and a second
attempt fails with AlreadyPaid. -/
theorem claim_C3_witness :
    collect_installment 0 0 150 planB balC 1 =
      ⟨.error (.contract .InsufficientFunds),
       { planB with
         status := PlanStatus.Defaulted,
         installments := planB.installments.set 0 { instB1 with status := .Failed } },
       balC⟩ ∧
    collect_installment 0 0 150
      { planB with
        status := PlanStatus.Defaulted,
        installments := planB.installments.set 0 { instB1 with status := .Failed } }
      balC 1 =
      ⟨.error (.contract .AlreadyPaid),
       { planB with
         status := PlanStatus.Defaulted,
         installments := planB.installments.set 0 { instB1 with status := .Failed } },
       balC⟩ :=
  have h := claim_C3 0 0 150 planB balC 1 instB1 5 (by decide) (by decide) (by rfl) (by rfl)
    (by decide) (by rfl) (by decide) (by decide)
  ⟨h.1, h.2 0 0 150⟩

/-- C8: with the system unpaused and a valid amount, a deposit by a user with
a recorded prior deposit (last_deposit_ts > 0) made when the elapsed time is
strictly below the configured minimum interval fails with the
deposit-too-frequent panic; a deposit at exactly the interval boundary never
fails with that panic; and a first-ever deposit (last_deposit_ts = 0) is
exempt from the throttle entirely. -/
theorem claim_C8 (cfg : ContractConfig) (tm ts ac : Int) (now : Nat)
    (bal : BufferBalance) (amount : Int) (hamt : 1 ≤ amount) :
    (0 < bal.last_deposit_ts → bal.last_deposit_ts ≤ now →
      now - bal.last_deposit_ts < cfg.min_deposit_interval →
      deposit false cfg tm ts ac now bal amount = .error .depositTooFrequent) ∧
    (now - bal.last_deposit_ts = cfg.min_deposit_interval →
      deposit false cfg tm ts ac now bal amount ≠ .error .depositTooFrequent) ∧
    (bal.last_deposit_ts = 0 →
      deposit false cfg tm ts ac now bal amount ≠ .error .depositTooFrequent) := by
  refine ⟨?_, ?_, ?_⟩
  · intro hl hle hlt
    simp only [deposit]
    rw [if_neg (by simp), if_neg (by rw [MIN_AMOUNT]; omega), if_neg (by omega),
        if_pos (by omega)]
  · intro heq hcon
    obtain ⟨hl, hle, hlt⟩ := deposit_tooFrequent_inv _ _ _ _ _ _ _ _ hcon
    omega
  · intro h0 hcon
    obtain ⟨hl, _, _⟩ := deposit_tooFrequent_inv _ _ _ _ _ _ _ _ hcon
    omega

/-- C8 witness: minimum interval 10 after a deposit at time 100: a deposit at
time 105 is rejected as too frequent, one at exactly time 110 is not, and a
first-ever deposit at time 110 is not throttled. -/
theorem claim_C8_witness :
    deposit false ⟨10, 50⟩ 0 0 7 105 balF 20 = .error .depositTooFrequent ∧
    deposit false ⟨10, 50⟩ 0 0 7 110 balF 20 ≠ .error .depositTooFrequent ∧
    deposit false ⟨10, 50⟩ 0 0 7 110 defaultBalance 20 ≠ .error .depositTooFrequent :=
  ⟨(claim_C8 ⟨10, 50⟩ 0 0 7 105 balF 20 (by decide)).1 (by decide) (by decide) (by decide),
   (claim_C8 ⟨10, 50⟩ 0 0 7 110 balF 20 (by decide)).2.1 (by decide),
   (claim_C8 ⟨10, 50⟩ 0 0 7 110 defaultBalance 20 (by decide)).2.2 (by rfl)⟩

/-- C10 witness: the amended statement instantiated at planB and balB. -/
theorem claim_C10_witness :
    collect_installment 0 0 150 planB balB 1 =
      ⟨.ok paymentProtected,
       { planB with
         protected_shares := planB.protected_shares - 5,
         installments := planB.installments.set 0 (markPaid instB1 150 paymentProtected) },
       { balB with
         protected_shares := balB.protected_shares - 5,
         version := balB.version + 1 }⟩ ∧
    planB.protected_shares - 5 < 0 :=
  claim_C10 0 0 150 planB balB 1 instB1 5 (by decide) (by decide) (by rfl) (by rfl)
    (by decide) (by rfl) (by decide) (by decide) (by decide) (by rfl) (by decide)
    (by rfl) (by decide) (by rfl)

end Redi
